import Mathlib

/-!
Verification development for the nmea-behavior-analysis repository.

The repository ships the visualization client (frontend/src) and design
documents; the analysis core (sentence parser, track builder, feature
extractor, rule detectors, consistency checker, classifier scorer, report
assembler) is specified in spec.md but its code is not in the tree, so
those components are modelled from the spec and marked as such in their
doc comments. Client-side definitions are translated from the TypeScript
sources; JavaScript numbers are embedded as rationals, null/undefined as
Option.none.
-/

namespace NmeaBehavior

/-- One navigation sample as delivered to the client
(frontend type Sample in page.tsx / lib/types). Nullable numeric fields
become Option; the optional anomaly flag list becomes a plain list. -/
structure Sample where
  t : String
  lat : Option ℚ
  lon : Option ℚ
  alt_m : Option ℚ
  speed_mps : Option ℚ
  heading_deg : Option ℚ
  num_sats : Option ℕ
  hdop : Option ℚ
  vdop : Option ℚ
  pdop : Option ℚ
  cn0_mean_dbhz : Option ℚ
  cn0_min_dbhz : Option ℚ
  cn0_max_dbhz : Option ℚ
  anomaly_flags : List String
deriving DecidableEq

/-- Risk label levels used by the client risk badge. -/
inductive RiskLevel where
  | HIGH
  | MED
  | LOW
deriving DecidableEq

/-- Result of riskLabel: the badge label and its CSS class string. -/
structure RiskInfo where
  label : RiskLevel
  cls : String
deriving DecidableEq

/-- riskLabel from RiskSummary.tsx (duplicated verbatim in page.tsx):
score at least 0.8 is HIGH, at least 0.4 is MED, otherwise LOW. -/
def riskLabel (score : ℚ) : RiskInfo :=
  if score ≥ 8/10 then { label := RiskLevel.HIGH, cls := "bg-red-600 text-white" }
  else if score ≥ 4/10 then { label := RiskLevel.MED, cls := "bg-yellow-500 text-black" }
  else { label := RiskLevel.LOW, cls := "bg-green-600 text-white" }

/-- JavaScript Math.round on a rational: floor of x + 1/2
(rounds halves toward positive infinity, as Math.round does). -/
def jsRound (q : ℚ) : ℤ :=
  Int.floor (q + 1/2)

/-- The displayed percentage in RiskSummary: Math.round(score * 100). -/
def riskPct (score : ℚ) : ℤ :=
  jsRound (score * 100)

/-- One datum of the speed chart (SpeedChart data builder). -/
structure SpeedPoint where
  i : ℕ
  t : String
  speed : Option ℚ
deriving DecidableEq

/-- One datum of the CN0 chart (Cn0Chart data builder). -/
structure Cn0Point where
  i : ℕ
  t : String
  cn0_mean : Option ℚ
  cn0_min : Option ℚ
  cn0_max : Option ℚ
deriving DecidableEq

/-- Index-carrying map underlying SpeedChart: samples.map((s, i) => ...),
with the running index made explicit. -/
def speedChartAux (i : ℕ) : List Sample → List SpeedPoint
  | [] => []
  | s :: rest => { i := i, t := s.t, speed := s.speed_mps } :: speedChartAux (i + 1) rest

/-- SpeedChart data builder (src/unnamed/part_000): each sample s at index
i becomes the record with index i, timestamp t and speed s.speed_mps with
null-coalescing to null. -/
def speedChartData (samples : List Sample) : List SpeedPoint :=
  speedChartAux 0 samples

/-- Index-carrying map underlying Cn0Chart. -/
def cn0ChartAux (i : ℕ) : List Sample → List Cn0Point
  | [] => []
  | s :: rest =>
      { i := i, t := s.t, cn0_mean := s.cn0_mean_dbhz, cn0_min := s.cn0_min_dbhz,
        cn0_max := s.cn0_max_dbhz } :: cn0ChartAux (i + 1) rest

/-- Cn0Chart data builder (src/unnamed/part_001): each sample s at index i
becomes the record with index i, timestamp t and the three CN0 aggregates,
null-coalesced to null. -/
def cn0ChartData (samples : List Sample) : List Cn0Point :=
  cn0ChartAux 0 samples

/-- The polyline points of the track map (TrackMapClient.tsx): keep exactly
the samples whose lat and lon are both numbers, in order, as (lat, lon)
pairs. -/
def trackPoints (samples : List Sample) : List (ℚ × ℚ) :=
  samples.filterMap fun s =>
    match s.lat, s.lon with
    | some a, some b => some (a, b)
    | _, _ => none

/-- What the track map component renders: either the placeholder card or a
Leaflet map with a center point and the polyline positions. -/
inductive MapRender where
  | placeholder
  | leafletMap (center : ℚ × ℚ) (pts : List (ℚ × ℚ))
deriving DecidableEq

/-- TrackMapClient.tsx rendering: below 2 valid points the placeholder is
returned; otherwise the map centered at pts[Math.floor(pts.length / 2)]. -/
def trackMapRender (samples : List Sample) : MapRender :=
  if h : (trackPoints samples).length < 2 then MapRender.placeholder
  else
    MapRender.leafletMap
      ((trackPoints samples).get ⟨(trackPoints samples).length / 2, by omega⟩)
      (trackPoints samples)

/-- Default sample used only as a getD fallback in theorem statements. -/
def sampleDefault : Sample :=
  { t := "", lat := none, lon := none, alt_m := none, speed_mps := none,
    heading_deg := none, num_sats := none, hdop := none, vdop := none,
    pdop := none, cn0_mean_dbhz := none, cn0_min_dbhz := none,
    cn0_max_dbhz := none, anomaly_flags := [] }

/-- Default speed point used only as a getD fallback. -/
def speedPointDefault : SpeedPoint :=
  { i := 0, t := "", speed := none }

/-- Default CN0 point used only as a getD fallback. -/
def cn0PointDefault : Cn0Point :=
  { i := 0, t := "", cn0_mean := none, cn0_min := none, cn0_max := none }

/-- A sample with only latitude and longitude present (used in witnesses). -/
def sampleAt (a b : ℚ) : Sample :=
  { sampleDefault with lat := some a, lon := some b }

/-- Report metadata: the meta block of the boundary schema (§6). -/
structure ReportMeta where
  file_name : String
  analyzed_at : String
  duration_sec : ℚ
  sample_count : ℕ
  gnss_systems : List String
deriving DecidableEq

/-- Report summary: the summary block of the boundary schema (§6). -/
structure ReportSummary where
  total_anomalies : ℕ
  spoofing_suspected_count : ℕ
  jamming_suspected_count : ℕ
  has_spoofing_suspected : Bool
  has_jamming_suspected : Bool
deriving DecidableEq

/-- Anomaly kinds of the data model (§3). -/
inductive AnomalyKind where
  | timeJump
  | positionJump
  | velocityInconsistent
  | cn0Dropout
  | satCountDrop
  | hdopSpike
  | ephemerisInconsistent
deriving DecidableEq

/-- Anomaly categories of the data model (§3). -/
inductive AnomalyCategory where
  | spoofingSuspected
  | jammingSuspected
  | qualityOnly
deriving DecidableEq

/-- One anomaly event: kind, category, time range and numeric evidence (§3). -/
structure AnomalyEvent where
  kind : AnomalyKind
  category : AnomalyCategory
  t_start : ℕ
  t_end : ℕ
  evidence : ℚ
deriving DecidableEq

/-- The ephemeris_consistency block: an explicit status plus detail (§6). -/
structure EphemerisConsistency where
  status : String
  detail : String
deriving DecidableEq

/-- One satellite_stats entry, derived from SatelliteObservation data (§6). -/
structure SatStat where
  sat_id : String
  cn0_mean : Option ℚ
deriving DecidableEq

/-- The full analysis report of the boundary schema (§3, §6). -/
structure AnalysisReport where
  meta : ReportMeta
  summary : ReportSummary
  track : List Sample
  anomalies : List AnomalyEvent
  satellite_stats : List SatStat
  ephemeris_consistency : EphemerisConsistency
  spoofing_score : Option ℚ
deriving DecidableEq

/-- Modelled from the spec: the Report Assembler summary computation
(§4.7) is not in src/; summary counts are obtained by filtering the
anomaly list per category. -/
def summarize (anoms : List AnomalyEvent) : ReportSummary :=
  { total_anomalies := anoms.length
    spoofing_suspected_count :=
      (anoms.filter fun e => e.category = AnomalyCategory.spoofingSuspected).length
    jamming_suspected_count :=
      (anoms.filter fun e => e.category = AnomalyCategory.jammingSuspected).length
    has_spoofing_suspected :=
      anoms.any fun e => e.category = AnomalyCategory.spoofingSuspected
    has_jamming_suspected :=
      anoms.any fun e => e.category = AnomalyCategory.jammingSuspected }

/-- Modelled from the spec: the Report Assembler (§4.7) is not in src/; a
pure function combining track, anomalies, satellite stats, consistency
status and the optional classifier probability into one report, passing
every input through unchanged. -/
def assembleReport (m : ReportMeta) (track : List Sample)
    (anoms : List AnomalyEvent) (stats : List SatStat)
    (eph : EphemerisConsistency) (score : Option ℚ) : AnalysisReport :=
  { meta := m, summary := summarize anoms, track := track, anomalies := anoms,
    satellite_stats := stats, ephemeris_consistency := eph,
    spoofing_score := score }

/-- Minimal JSON value model for the boundary contract. -/
inductive Json where
  | null
  | bool (b : Bool)
  | num (q : ℚ)
  | str (s : String)
  | arr (items : List Json)
  | obj (fields : List (String × Json))

/-- A nullable number on the wire: null when absent. -/
def optNum : Option ℚ → Json
  | some q => Json.num q
  | none => Json.null

/-- A nullable natural number on the wire: null when absent. -/
def optNatNum : Option ℕ → Json
  | some n => Json.num n
  | none => Json.null

/-- Serialization of one sample: absent numeric fields are emitted as
null, present ones as their number. -/
def sampleJson (s : Sample) : Json :=
  Json.obj [("t", Json.str s.t), ("lat", optNum s.lat), ("lon", optNum s.lon),
    ("alt_m", optNum s.alt_m), ("speed_mps", optNum s.speed_mps),
    ("heading_deg", optNum s.heading_deg), ("num_sats", optNatNum s.num_sats),
    ("hdop", optNum s.hdop), ("vdop", optNum s.vdop), ("pdop", optNum s.pdop),
    ("cn0_mean_dbhz", optNum s.cn0_mean_dbhz),
    ("cn0_min_dbhz", optNum s.cn0_min_dbhz),
    ("cn0_max_dbhz", optNum s.cn0_max_dbhz),
    ("anomaly_flags", Json.arr (s.anomaly_flags.map Json.str))]

/-- Serialization of the meta block. -/
def metaJson (m : ReportMeta) : Json :=
  Json.obj [("file_name", Json.str m.file_name),
    ("analyzed_at", Json.str m.analyzed_at),
    ("duration_sec", Json.num m.duration_sec),
    ("sample_count", Json.num m.sample_count),
    ("gnss_systems", Json.arr (m.gnss_systems.map Json.str))]

/-- Serialization of the summary block. -/
def summaryJson (s : ReportSummary) : Json :=
  Json.obj [("total_anomalies", Json.num s.total_anomalies),
    ("spoofing_suspected_count", Json.num s.spoofing_suspected_count),
    ("jamming_suspected_count", Json.num s.jamming_suspected_count),
    ("has_spoofing_suspected", Json.bool s.has_spoofing_suspected),
    ("has_jamming_suspected", Json.bool s.has_jamming_suspected)]

/-- Wire names of the anomaly kinds (§3). -/
def kindString : AnomalyKind → String
  | AnomalyKind.timeJump => "time-jump"
  | AnomalyKind.positionJump => "position-jump"
  | AnomalyKind.velocityInconsistent => "velocity-inconsistent"
  | AnomalyKind.cn0Dropout => "cn0-dropout"
  | AnomalyKind.satCountDrop => "satellite-count-drop"
  | AnomalyKind.hdopSpike => "hdop-spike"
  | AnomalyKind.ephemerisInconsistent => "ephemeris-inconsistent"

/-- Wire names of the anomaly categories (§3). -/
def categoryString : AnomalyCategory → String
  | AnomalyCategory.spoofingSuspected => "spoofing-suspected"
  | AnomalyCategory.jammingSuspected => "jamming-suspected"
  | AnomalyCategory.qualityOnly => "quality-only"

/-- Serialization of one anomaly event. -/
def anomalyJson (a : AnomalyEvent) : Json :=
  Json.obj [("kind", Json.str (kindString a.kind)),
    ("category", Json.str (categoryString a.category)),
    ("t_start", Json.num a.t_start), ("t_end", Json.num a.t_end),
    ("evidence", Json.num a.evidence)]

/-- Serialization of one satellite_stats entry. -/
def satStatJson (s : SatStat) : Json :=
  Json.obj [("sat_id", Json.str s.sat_id), ("cn0_mean", optNum s.cn0_mean)]

/-- Serialization of the ephemeris_consistency block. -/
def ephJson (e : EphemerisConsistency) : Json :=
  Json.obj [("status", Json.str e.status), ("detail", Json.str e.detail)]

/-- Modelled from the spec: report serialization at the boundary (§6) is
not in src/. It emits exactly the seven schema fields, and null, not a
default, for a spoofing score that could not be computed. -/
def reportJson (r : AnalysisReport) : Json :=
  Json.obj [("meta", metaJson r.meta), ("summary", summaryJson r.summary),
    ("track", Json.obj [("samples", Json.arr (r.track.map sampleJson))]),
    ("anomalies", Json.arr (r.anomalies.map anomalyJson)),
    ("satellite_stats", Json.arr (r.satellite_stats.map satStatJson)),
    ("ephemeris_consistency", ephJson r.ephemeris_consistency),
    ("spoofing_score", optNum r.spoofing_score)]

/-- The key list of a JSON object. -/
def jsonKeys : Json → List String
  | Json.obj fields => fields.map Prod.fst
  | _ => []

/-- Field lookup in a JSON object. -/
def jsonLookup (j : Json) (key : String) : Option Json :=
  match j with
  | Json.obj fields => (fields.find? fun f => f.fst == key).map Prod.snd
  | _ => none

/-- Request-level error taxonomy (§7): InputError aborts on an empty or
entirely unparsable upload, ConfigurationError on a model shape mismatch. -/
inductive AnalyzeError where
  | inputError
  | configError
deriving DecidableEq

/-- Modelled from the spec: the frozen classifier model artifact (§4.6) —
parameters plus declared input shape, supplied at initialization. -/
structure ClassifierModel where
  weights : List ℚ
  bias : ℚ
  input_dim : ℕ
deriving DecidableEq

/-- Dot product of two rational vectors. -/
def dotProd : List ℚ → List ℚ → ℚ
  | [], _ => 0
  | _, [] => 0
  | w :: ws, v :: vs => w * v + dotProd ws vs

/-- Clamp a rational into the closed unit interval. -/
def clamp01 (q : ℚ) : ℚ := max 0 (min 1 q)

/-- Modelled from the spec: the Classifier Scorer (§4.6) is not in src/.
It validates the feature-vector length against the model's declared input
shape, failing with a ConfigurationError on mismatch, and otherwise
deterministically returns a probability in the closed interval from 0 to
1, modelled as the model's affine response clamped into that interval. -/
def classifierScore (m : ClassifierModel) (features : List ℚ) :
    Except AnalyzeError ℚ :=
  if features.length = m.input_dim then
    Except.ok (clamp01 (m.bias + dotProd m.weights features))
  else Except.error AnalyzeError.configError

/-- The wire form of the spoofing score field: a number or null. -/
def scoreWire : Option ℚ → Json
  | some q => Json.num q
  | none => Json.null

/-- The client coercion in page.tsx: a value whose typeof is number is
kept, anything else becomes null before rendering. -/
def clientSpoofingScore : Json → Option ℚ
  | Json.num q => some q
  | _ => none

/-- The spoofing score of a report is either absent or the value the
classifier returned on the feature vector. -/
def scoreFromClassifier (m : ClassifierModel) (features : List ℚ)
    (s : Option ℚ) : Prop :=
  s = none ∨ ∃ q, classifierScore m features = Except.ok q ∧ s = some q

/-- Timestamp ordering on epochs handed to the track builder. -/
def epochLE (a b : ℕ × Sample) : Prop := a.1 ≤ b.1

instance : DecidableRel epochLE :=
  fun a b => inferInstanceAs (Decidable (a.1 ≤ b.1))

instance : IsTotal (ℕ × Sample) epochLE :=
  ⟨fun a b => Nat.le_total a.1 b.1⟩

instance : IsTrans (ℕ × Sample) epochLE :=
  ⟨fun _ _ _ => Nat.le_trans⟩

/-- Timestamp of the last accepted epoch, if any. -/
def lastTs : List (ℕ × Sample) → Option ℕ
  | [] => none
  | [e] => some e.1
  | _ :: rest => lastTs rest

/-- Modelled from the spec: the Track Builder ordering policy (§4.2) is
not in src/. Epochs are processed in arrival order; one whose timestamp
does not exceed the last accepted timestamp is inserted in sorted order
when it lies within the tolerance window, and is discarded with a
time-reorder warning beyond it. -/
def buildTrackAux (tol : ℕ) :
    List (ℕ × Sample) → List (ℕ × Sample) → List String →
    List (ℕ × Sample) × List String
  | [], acc, ws => (acc, ws)
  | e :: rest, acc, ws =>
    match lastTs acc with
    | none => buildTrackAux tol rest (List.orderedInsert epochLE e acc) ws
    | some l =>
      if e.1 + tol < l then
        buildTrackAux tol rest acc (ws ++ ["time-reorder"])
      else
        buildTrackAux tol rest (List.orderedInsert epochLE e acc) ws

/-- The built track and the recorded warnings for a list of epochs. -/
def buildTrack (tol : ℕ) (epochs : List (ℕ × Sample)) :
    List (ℕ × Sample) × List String :=
  buildTrackAux tol epochs [] []

/-- Modelled from the spec: the threshold configuration of the rule checks
(§4.4, design note 4), externally supplied. -/
structure DetectorConfig where
  max_time_gap : ℕ
  hdop_ceiling : ℚ
deriving DecidableEq

/-- Modelled from the spec: the time-jump check (§4.4) is not in src/; a
timestamp gap between consecutive accepted epochs above the configured
maximum yields one spoofing-suspected time-jump event. -/
def timeJumpCheck (cfg : DetectorConfig) :
    List (ℕ × Sample) → List AnomalyEvent
  | a :: b :: rest =>
    (if cfg.max_time_gap < b.1 - a.1 then
      [{ kind := AnomalyKind.timeJump,
         category := AnomalyCategory.spoofingSuspected,
         t_start := a.1, t_end := b.1, evidence := ((b.1 - a.1 : ℕ) : ℚ) }]
    else []) ++ timeJumpCheck cfg (b :: rest)
  | _ => []

/-- Modelled from the spec: the hdop-spike check (§4.4) is not in src/;
an HDOP above the configured ceiling yields a quality-only event. -/
def hdopSpikeCheck (cfg : DetectorConfig) (track : List (ℕ × Sample)) :
    List AnomalyEvent :=
  track.filterMap fun e =>
    match e.2.hdop with
    | some h =>
      if cfg.hdop_ceiling < h then
        some { kind := AnomalyKind.hdopSpike,
               category := AnomalyCategory.qualityOnly,
               t_start := e.1, t_end := e.1, evidence := h }
      else none
    | none => none

/-- Modelled from the spec: the registry of pure detector functions
(§4.4, design note 3), applied in a fixed documented order. -/
def runChecks (cfg : DetectorConfig) (track : List (ℕ × Sample)) :
    List AnomalyEvent :=
  timeJumpCheck cfg track ++ hdopSpikeCheck cfg track

/-- Mean of a rational list, 0 on the empty list; the companion
missing-indicator feature keeps the vector fully defined (§4.3). -/
def qMean (l : List ℚ) : ℚ := if l.isEmpty then 0 else l.sum / l.length

/-- Modelled from the spec: the Feature Extractor (§4.3) is not in src/;
it computes a fixed-length, fixed-order, always-defined numeric vector of
track statistics with explicit missing-indicator entries. -/
def extractFeatures (track : List (ℕ × Sample)) : List ℚ :=
  let speeds := track.filterMap fun e => e.2.speed_mps
  let cn0s := track.filterMap fun e => e.2.cn0_mean_dbhz
  [qMean speeds, if speeds.isEmpty then 1 else 0,
   qMean cn0s, if cn0s.isEmpty then 1 else 0,
   (track.length : ℚ)]

/-- Modelled from the spec: the consistency checker (§4.5) is not in src/;
when satellite observation data is absent it reports an explicit
insufficient-data status rather than a fabricated pass. -/
def ephemerisStatus (stats : List SatStat) : EphemerisConsistency :=
  if stats.isEmpty then
    { status := "insufficient-data", detail := "no satellite observations in log" }
  else { status := "ok", detail := "" }

/-- Modelled from the spec: the analyze pipeline top level (§2, §7) is not
in src/. An upload yielding no valid sample is an InputError; a model
shape mismatch is a fatal ConfigurationError; too few samples for the
classifier degrade to a null spoofing score; otherwise a complete report
is assembled from the built track, the rule-check anomalies, the
satellite stats, the consistency status and the classifier probability. -/
def analyze (model : ClassifierModel) (cfg : DetectorConfig) (tol : ℕ)
    (fileName analyzedAt : String) (systems : List String)
    (stats : List SatStat) (epochs : List (ℕ × Sample)) :
    Except AnalyzeError AnalysisReport :=
  let track := (buildTrack tol epochs).1
  if track.isEmpty then Except.error AnalyzeError.inputError
  else
    let m : ReportMeta :=
      { file_name := fileName, analyzed_at := analyzedAt,
        duration_sec :=
          ((((lastTs track).getD 0 - (track.headD (0, sampleDefault)).1 : ℕ)) : ℚ),
        sample_count := track.length, gnss_systems := systems }
    let anoms := runChecks cfg track
    let samples := track.map Prod.snd
    let eph := ephemerisStatus stats
    if track.length < 2 then
      Except.ok (assembleReport m samples anoms stats eph none)
    else
      match classifierScore model (extractFeatures track) with
      | Except.error e => Except.error e
      | Except.ok q => Except.ok (assembleReport m samples anoms stats eph (some q))

/-- Modelled from the spec: HTTP surface of the analyze endpoint —
request-level failures return a non-OK status (400 for an InputError, 500
for a ConfigurationError), success returns the report body. -/
def serveAnalyze (result : Except AnalyzeError AnalysisReport) :
    Except ℕ AnalysisReport :=
  match result with
  | Except.error AnalyzeError.inputError => Except.error 400
  | Except.error AnalyzeError.configError => Except.error 500
  | Except.ok r => Except.ok r

/-- Client page state: the result and error useState cells of page.tsx. -/
structure ClientState where
  result : Option AnalysisReport
  error : Option String

/-- handleUpload from page.tsx: the result is cleared before the request;
a non-OK response throws, the catch stores the failure message and the
result stays null; an OK response stores the parsed report. -/
def handleUpload (resp : Except ℕ AnalysisReport) : ClientState :=
  match resp with
  | Except.error status =>
    { result := none, error := some ("Analysis failed: HTTP " ++ toString status) }
  | Except.ok data => { result := some data, error := none }

/-- Result-dependent elements the page can render. Block.errorBanner
models the error paragraph element of the earlier page revision; the
current page.tsx JSX contains no element bound to the error state. -/
inductive Block where
  | riskSummary (pct : ℤ) (label : RiskLevel)
  | analysisSummary (fileName : String) (totalAnomalies spoofCount jamCount : ℕ)
  | cn0Chart (data : List Cn0Point)
  | speedChart (data : List SpeedPoint)
  | trackMap (render : MapRender)
  | rawJson
  | errorBanner (msg : String)
deriving DecidableEq

/-- The result-dependent blocks of the page body, translated from the JSX
of page.tsx: the risk summary is rendered only when a result is present
and its spoofing score is a number; the analysis summary with the two
charts, the track map and the raw-JSON details is rendered whenever a
result is present; no element renders the error state. -/
def renderHome (result : Option AnalysisReport) : List Block :=
  (match result with
   | some r =>
     match r.spoofing_score with
     | some q => [Block.riskSummary (riskPct q) (riskLabel q).label]
     | none => []
   | none => []) ++
  (match result with
   | some r =>
     [Block.analysisSummary r.meta.file_name r.summary.total_anomalies
        r.summary.spoofing_suspected_count r.summary.jamming_suspected_count,
      Block.cn0Chart (cn0ChartData r.track),
      Block.speedChart (speedChartData r.track),
      Block.trackMap (trackMapRender r.track), Block.rawJson]
   | none => [])

/-- The page render as a function of the client state; the error cell is
not referenced by any JSX element of page.tsx. -/
def renderClient (st : ClientState) : List Block :=
  renderHome st.result

/-- The result-section blocks of a report: everything below the risk
summary. -/
def reportBlocks (r : AnalysisReport) : List Block :=
  [Block.analysisSummary r.meta.file_name r.summary.total_anomalies
     r.summary.spoofing_suspected_count r.summary.jamming_suspected_count,
   Block.cn0Chart (cn0ChartData r.track),
   Block.speedChart (speedChartData r.track),
   Block.trackMap (trackMapRender r.track), Block.rawJson]

/-- GGA position-fix record fields used by the track builder. -/
structure GgaData where
  lat : ℚ
  lon : ℚ
  alt_m : ℚ
  num_sats : ℕ
deriving DecidableEq

/-- RMC velocity record fields used by the track builder. -/
structure RmcData where
  speed_mps : ℚ
  heading_deg : ℚ
deriving DecidableEq

/-- GSA active-satellites record fields used by the track builder. -/
structure GsaData where
  hdop : ℚ
  vdop : ℚ
  pdop : ℚ
deriving DecidableEq

/-- Modelled from the spec: the per-epoch sentence group handed from the
parser to the track builder (§4.1, §4.2) is not in src/: optional
position-fix, velocity and active-satellites records, plus the CN0
readings of the satellites marked visible for the epoch. -/
structure EpochSentences where
  gga : Option GgaData
  rmc : Option RmcData
  gsa : Option GsaData
  gsvCn0 : List ℚ
deriving DecidableEq

/-- CN0 mean over the visible satellites, none when there are none. -/
def cn0MeanOf (l : List ℚ) : Option ℚ :=
  match l with
  | [] => none
  | _ => some (l.sum / l.length)

/-- CN0 minimum over the visible satellites, none when there are none. -/
def cn0MinOf (l : List ℚ) : Option ℚ :=
  match l with
  | [] => none
  | x :: xs => some (xs.foldl min x)

/-- CN0 maximum over the visible satellites, none when there are none. -/
def cn0MaxOf (l : List ℚ) : Option ℚ :=
  match l with
  | [] => none
  | x :: xs => some (xs.foldl max x)

/-- Modelled from the spec: Sample construction in the Track Builder
(§4.2, data-model invariant of §3): each numeric field carries the
corresponding sentence field when that sentence is present and is null
when it is absent — never a zero default. -/
def buildSample (t : String) (es : EpochSentences) : Sample :=
  { t := t
    lat := es.gga.map fun g => g.lat
    lon := es.gga.map fun g => g.lon
    alt_m := es.gga.map fun g => g.alt_m
    num_sats := es.gga.map fun g => g.num_sats
    speed_mps := es.rmc.map fun v => v.speed_mps
    heading_deg := es.rmc.map fun v => v.heading_deg
    hdop := es.gsa.map fun g => g.hdop
    vdop := es.gsa.map fun g => g.vdop
    pdop := es.gsa.map fun g => g.pdop
    cn0_mean_dbhz := cn0MeanOf es.gsvCn0
    cn0_min_dbhz := cn0MinOf es.gsvCn0
    cn0_max_dbhz := cn0MaxOf es.gsvCn0
    anomaly_flags := [] }

/-- A concrete epoch carrying only a velocity sentence (witness input). -/
def epochRmcOnly : EpochSentences :=
  { gga := none, rmc := some { speed_mps := 5, heading_deg := 90 },
    gsa := none, gsvCn0 := [] }

/-- A concrete model artifact with empty shape (witness input). -/
def modelDefault : ClassifierModel :=
  { weights := [], bias := 1/2, input_dim := 0 }

/-- A concrete metadata block (witness input). -/
def metaDefault : ReportMeta :=
  { file_name := "log.nmea", analyzed_at := "2024-01-01T00:00:00Z",
    duration_sec := 0, sample_count := 0, gnss_systems := [] }

/-- A concrete report whose classifier score is absent (witness input). -/
def reportNoScore : AnalysisReport :=
  { meta := metaDefault, summary := summarize [], track := [], anomalies := [],
    satellite_stats := [],
    ephemeris_consistency := ephemerisStatus [], spoofing_score := none }

theorem speedChartAux_length (j : ℕ) (l : List Sample) :
    (speedChartAux j l).length = l.length := by
  induction l generalizing j with
  | nil => rfl
  | cons s rest ih => simp [speedChartAux, ih]

theorem cn0ChartAux_length (j : ℕ) (l : List Sample) :
    (cn0ChartAux j l).length = l.length := by
  induction l generalizing j with
  | nil => rfl
  | cons s rest ih => simp [cn0ChartAux, ih]

theorem speedChartAux_getD (l : List Sample) (j k : ℕ) (hk : k < l.length) :
    (speedChartAux j l).getD k speedPointDefault =
      { i := j + k, t := (l.getD k sampleDefault).t,
        speed := (l.getD k sampleDefault).speed_mps } := by
  induction l generalizing j k with
  | nil => simp at hk
  | cons s rest ih =>
    cases k with
    | zero => simp [speedChartAux]
    | succ k =>
      have hk' : k < rest.length := by simpa using hk
      have harith : j + (k + 1) = (j + 1) + k := by omega
      rw [harith]
      simpa [speedChartAux] using ih (j + 1) k hk'

theorem cn0ChartAux_getD (l : List Sample) (j k : ℕ) (hk : k < l.length) :
    (cn0ChartAux j l).getD k cn0PointDefault =
      { i := j + k, t := (l.getD k sampleDefault).t,
        cn0_mean := (l.getD k sampleDefault).cn0_mean_dbhz,
        cn0_min := (l.getD k sampleDefault).cn0_min_dbhz,
        cn0_max := (l.getD k sampleDefault).cn0_max_dbhz } := by
  induction l generalizing j k with
  | nil => simp at hk
  | cons s rest ih =>
    cases k with
    | zero => simp [cn0ChartAux]
    | succ k =>
      have hk' : k < rest.length := by simpa using hk
      have harith : j + (k + 1) = (j + 1) + k := by omega
      rw [harith]
      simpa [cn0ChartAux] using ih (j + 1) k hk'

/-- C8: for every numeric score the risk classification is a total
three-way partition — HIGH iff score is at least 0.8, MED iff it is at
least 0.4 and below 0.8, LOW iff it is below 0.4 — and the displayed
percentage equals Math.round of 100 times the score. -/
theorem risk_classification_partition (score : ℚ) :
    ((riskLabel score).label = RiskLevel.HIGH ↔ 8/10 ≤ score) ∧
    ((riskLabel score).label = RiskLevel.MED ↔ 4/10 ≤ score ∧ score < 8/10) ∧
    ((riskLabel score).label = RiskLevel.LOW ↔ score < 4/10) ∧
    riskPct score = jsRound (100 * score) := by
  have hpct : riskPct score = jsRound (100 * score) := by
    unfold riskPct
    rw [mul_comm]
  unfold riskLabel
  split_ifs with h1 h2
  · exact ⟨iff_of_true rfl h1,
      iff_of_false (by simp) (by rintro ⟨-, h⟩; linarith),
      iff_of_false (by simp) (by intro h; linarith), hpct⟩
  · exact ⟨iff_of_false (by simp) h1,
      iff_of_true rfl ⟨h2, not_le.mp h1⟩,
      iff_of_false (by simp) (by intro h; linarith), hpct⟩
  · exact ⟨iff_of_false (by simp) h1,
      iff_of_false (by simp) (by rintro ⟨h, -⟩; exact h2 h),
      iff_of_true rfl (not_le.mp h2), hpct⟩

/-- C9: the track map polyline consists of exactly the samples whose
latitude and longitude are both present, in order; with fewer than 2 such
points the placeholder is rendered, and otherwise the center index
floor(length / 2) is in bounds and the map is rendered from those points. -/
theorem track_map_points_center (samples : List Sample) :
    trackPoints samples =
      (samples.filter fun s => s.lat.isSome && s.lon.isSome).map
        (fun s => (s.lat.getD 0, s.lon.getD 0)) ∧
    ((trackPoints samples).length < 2 → trackMapRender samples = MapRender.placeholder) ∧
    (2 ≤ (trackPoints samples).length →
      (trackPoints samples).length / 2 < (trackPoints samples).length ∧
      trackMapRender samples =
        MapRender.leafletMap
          ((trackPoints samples).getD ((trackPoints samples).length / 2) (0, 0))
          (trackPoints samples)) := by
  refine ⟨?_, ?_, ?_⟩
  · induction samples with
    | nil => rfl
    | cons s rest ih =>
      cases hla : s.lat <;> cases hlo : s.lon <;>
        simp [trackPoints, List.filterMap_cons, List.filter_cons, hla, hlo] at ih ⊢ <;>
        exact ih
  · intro h
    simp only [trackMapRender]
    rw [dif_pos h]
  · intro h2
    have hlt : (trackPoints samples).length / 2 < (trackPoints samples).length := by omega
    refine ⟨hlt, ?_⟩
    simp only [trackMapRender]
    rw [dif_neg (by omega)]
    rw [List.getD_eq_getElem _ _ hlt]
    rfl

/-- Witness for C9 at two concrete samples with present coordinates. -/
theorem track_map_points_center_witness :
    (trackPoints [sampleAt 1 2, sampleAt 3 4]).length / 2 <
      (trackPoints [sampleAt 1 2, sampleAt 3 4]).length ∧
    trackMapRender [sampleAt 1 2, sampleAt 3 4] =
      MapRender.leafletMap
        ((trackPoints [sampleAt 1 2, sampleAt 3 4]).getD
          ((trackPoints [sampleAt 1 2, sampleAt 3 4]).length / 2) (0, 0))
        (trackPoints [sampleAt 1 2, sampleAt 3 4]) :=
  (track_map_points_center [sampleAt 1 2, sampleAt 3 4]).2.2 (by decide)

/-- C10: the speed and CN0 chart data builders are index-preserving maps —
the output has the same length as the sample list and its k-th element
carries index k and the k-th sample's values. -/
theorem chart_builders_index_preserving (samples : List Sample) :
    (speedChartData samples).length = samples.length ∧
    (cn0ChartData samples).length = samples.length ∧
    ∀ k, k < samples.length →
      (speedChartData samples).getD k speedPointDefault =
        { i := k, t := (samples.getD k sampleDefault).t,
          speed := (samples.getD k sampleDefault).speed_mps } ∧
      (cn0ChartData samples).getD k cn0PointDefault =
        { i := k, t := (samples.getD k sampleDefault).t,
          cn0_mean := (samples.getD k sampleDefault).cn0_mean_dbhz,
          cn0_min := (samples.getD k sampleDefault).cn0_min_dbhz,
          cn0_max := (samples.getD k sampleDefault).cn0_max_dbhz } := by
  refine ⟨speedChartAux_length 0 samples, cn0ChartAux_length 0 samples, ?_⟩
  intro k hk
  constructor
  · simpa using speedChartAux_getD samples 0 k hk
  · simpa using cn0ChartAux_getD samples 0 k hk

/-- Witness for C10 at a concrete one-element sample list. -/
theorem chart_builders_index_preserving_witness :
    (speedChartData [sampleDefault]).getD 0 speedPointDefault =
      { i := 0, t := ([sampleDefault].getD 0 sampleDefault).t,
        speed := ([sampleDefault].getD 0 sampleDefault).speed_mps } ∧
    (cn0ChartData [sampleDefault]).getD 0 cn0PointDefault =
      { i := 0, t := ([sampleDefault].getD 0 sampleDefault).t,
        cn0_mean := ([sampleDefault].getD 0 sampleDefault).cn0_mean_dbhz,
        cn0_min := ([sampleDefault].getD 0 sampleDefault).cn0_min_dbhz,
        cn0_max := ([sampleDefault].getD 0 sampleDefault).cn0_max_dbhz } :=
  (chart_builders_index_preserving [sampleDefault]).2.2 0 (by decide)

theorem clamp01_mem (q : ℚ) : 0 ≤ clamp01 q ∧ clamp01 q ≤ 1 :=
  ⟨le_max_left 0 _, max_le (by norm_num) (min_le_left 1 q)⟩

/-- C1: the spoofing score is either null or a real number in the closed
unit interval — the classifier only ever returns values in that interval,
and the client coerces any non-number wire value to null before rendering
the risk conclusion. -/
theorem spoofing_score_null_or_unit_interval :
    (∀ v : Json, (∀ q : ℚ, v ≠ Json.num q) → clientSpoofingScore v = none) ∧
    (∀ (m : ClassifierModel) (features : List ℚ) (s : Option ℚ),
      scoreFromClassifier m features s →
      clientSpoofingScore (scoreWire s) = none ∨
      ∃ q, clientSpoofingScore (scoreWire s) = some q ∧ 0 ≤ q ∧ q ≤ 1) := by
  constructor
  · intro v hv
    cases v with
    | null => rfl
    | bool b => rfl
    | num q => exact absurd rfl (hv q)
    | str s => rfl
    | arr items => rfl
    | obj fields => rfl
  · rintro m features s (rfl | ⟨q, hok, rfl⟩)
    · exact Or.inl rfl
    · refine Or.inr ⟨q, rfl, ?_⟩
      unfold classifierScore at hok
      by_cases hlen : features.length = m.input_dim
      · rw [if_pos hlen] at hok
        have hq : clamp01 (m.bias + dotProd m.weights features) = q :=
          Except.ok.inj hok
        rw [← hq]
        exact clamp01_mem _
      · rw [if_neg hlen] at hok
        exact absurd hok (by simp)

/-- Witness for C1 at a concrete classifier output. -/
theorem spoofing_score_null_or_unit_interval_witness :
    clientSpoofingScore (scoreWire (some (1/2))) = none ∨
    ∃ q, clientSpoofingScore (scoreWire (some (1/2))) = some q ∧ 0 ≤ q ∧ q ≤ 1 :=
  spoofing_score_null_or_unit_interval.2 modelDefault [] (some (1/2))
    (Or.inr ⟨1/2, by norm_num [classifierScore, modelDefault, clamp01, dotProd],
      rfl⟩)

/-- C2: the serialized report consists of exactly the seven schema
top-level fields in order, the meta and summary blocks of exactly their
schema fields, and an uncomputable spoofing score is emitted as null. -/
theorem response_schema_exact (r : AnalysisReport) :
    jsonKeys (reportJson r) =
      ["meta", "summary", "track", "anomalies", "satellite_stats",
       "ephemeris_consistency", "spoofing_score"] ∧
    jsonKeys (metaJson r.meta) =
      ["file_name", "analyzed_at", "duration_sec", "sample_count",
       "gnss_systems"] ∧
    jsonKeys (summaryJson r.summary) =
      ["total_anomalies", "spoofing_suspected_count",
       "jamming_suspected_count", "has_spoofing_suspected",
       "has_jamming_suspected"] ∧
    (r.spoofing_score = none →
      jsonLookup (reportJson r) "spoofing_score" = some Json.null) := by
  refine ⟨rfl, rfl, rfl, ?_⟩
  intro h
  simp [reportJson, jsonLookup, optNum, h]

/-- Witness for C2 at a concrete report without a classifier score. -/
theorem response_schema_exact_witness :
    jsonLookup (reportJson reportNoScore) "spoofing_score" = some Json.null :=
  (response_schema_exact reportNoScore).2.2.2 rfl

theorem buildTrackAux_sorted (tol : ℕ) (es : List (ℕ × Sample)) :
    ∀ (acc : List (ℕ × Sample)) (ws : List String),
    List.Sorted epochLE acc →
    List.Sorted epochLE (buildTrackAux tol es acc ws).1 := by
  induction es with
  | nil => intro acc ws h; exact h
  | cons e rest ih =>
    intro acc ws h
    simp only [buildTrackAux]
    cases lastTs acc with
    | none => exact ih _ _ (h.orderedInsert e acc)
    | some l =>
      simp only
      split_ifs with hgap
      · exact ih _ _ h
      · exact ih _ _ (h.orderedInsert e acc)

theorem lastTs_eq_none {l : List (ℕ × Sample)} (h : lastTs l = none) :
    l = [] := by
  induction l with
  | nil => rfl
  | cons a rest ih =>
    cases rest with
    | nil => simp [lastTs] at h
    | cons b rest2 =>
      rw [show lastTs (a :: b :: rest2) = lastTs (b :: rest2) from rfl] at h
      exact absurd (ih h) (by simp)

theorem lastTs_mem {l : List (ℕ × Sample)} {t : ℕ} (h : lastTs l = some t) :
    ∃ e ∈ l, e.1 = t := by
  induction l with
  | nil => simp [lastTs] at h
  | cons a rest ih =>
    cases rest with
    | nil =>
      simp [lastTs] at h
      exact ⟨a, by simp, h⟩
    | cons b rest2 =>
      rw [show lastTs (a :: b :: rest2) = lastTs (b :: rest2) from rfl] at h
      obtain ⟨e, he, ht⟩ := ih h
      exact ⟨e, List.mem_cons_of_mem a he, ht⟩

theorem orderedInsert_append_of_lt (e : ℕ × Sample) (acc : List (ℕ × Sample))
    (h : ∀ x ∈ acc, x.1 < e.1) :
    List.orderedInsert epochLE e acc = acc ++ [e] := by
  induction acc with
  | nil => rfl
  | cons a rest ih =>
    have ha : a.1 < e.1 := h a (by simp)
    simp only [List.orderedInsert]
    rw [if_neg (show ¬ epochLE e a by simp only [epochLE]; omega)]
    rw [ih fun x hx => h x (List.mem_cons_of_mem a hx)]
    simp

theorem buildTrackAux_strict (tol : ℕ) (es : List (ℕ × Sample)) :
    ∀ (acc : List (ℕ × Sample)) (ws : List String),
    List.Pairwise (fun a b => a.1 < b.1) (acc ++ es) →
    buildTrackAux tol es acc ws = (acc ++ es, ws) := by
  induction es with
  | nil => intro acc ws _; simp [buildTrackAux]
  | cons e rest ih =>
    intro acc ws h
    have hcross : ∀ x ∈ acc, x.1 < e.1 := fun x hx =>
      (List.pairwise_append.mp h).2.2 x hx e (by simp)
    simp only [buildTrackAux]
    cases hl : lastTs acc with
    | none =>
      have hacc : acc = [] := lastTs_eq_none hl
      subst hacc
      rw [show List.orderedInsert epochLE e [] = [e] from rfl]
      simpa using ih [e] ws (by simpa using h)
    | some l =>
      obtain ⟨x, hx, hxl⟩ := lastTs_mem hl
      have hlt : l < e.1 := hxl ▸ hcross x hx
      simp only
      rw [if_neg (show ¬ e.1 + tol < l by omega)]
      rw [orderedInsert_append_of_lt e acc hcross]
      have hres := ih (acc ++ [e]) ws (by simpa [List.append_assoc] using h)
      simpa [List.append_assoc] using hres

/-- C3: the track produced by the builder is always ordered by timestamp
(non-decreasing), and on a valid log — strictly increasing input epochs —
it is strictly increasing with no time-reorder warning recorded. -/
theorem track_time_ordered (tol : ℕ) (epochs : List (ℕ × Sample)) :
    List.Sorted epochLE (buildTrack tol epochs).1 ∧
    (List.Pairwise (fun a b => a.1 < b.1) epochs →
      buildTrack tol epochs = (epochs, []) ∧
      List.Pairwise (fun a b => a.1 < b.1) (buildTrack tol epochs).1) := by
  constructor
  · exact buildTrackAux_sorted tol epochs [] [] (by simp)
  · intro h
    have hb : buildTrack tol epochs = (epochs, []) := by
      unfold buildTrack
      simpa using buildTrackAux_strict tol epochs [] [] (by simpa using h)
    exact ⟨hb, by rw [hb]; exact h⟩

/-- Witness for C3 at a concrete strictly increasing epoch list. -/
theorem track_time_ordered_witness :
    buildTrack 2 [(0, sampleDefault), (5, sampleDefault)] =
      ([(0, sampleDefault), (5, sampleDefault)], []) ∧
    List.Pairwise (fun a b => a.1 < b.1)
      (buildTrack 2 [(0, sampleDefault), (5, sampleDefault)]).1 :=
  (track_time_ordered 2 [(0, sampleDefault), (5, sampleDefault)]).2
    (by simp)

/-- C4: the pipeline is deterministic — identical input log, configuration
and frozen model yield identical output (also after serialization), each
rule check yields identical events on identical track and configuration,
and the classifier yields the identical probability on identical feature
vector and model. In this embedding every stage is a pure function of its
declared inputs (the analyzed-at clock reading is an explicit input), so
two runs coincide definitionally. -/
theorem pipeline_deterministic (model : ClassifierModel)
    (cfg : DetectorConfig) (tol : ℕ) (fileName analyzedAt : String)
    (systems : List String) (stats : List SatStat)
    (epochs track : List (ℕ × Sample)) (features : List ℚ) :
    analyze model cfg tol fileName analyzedAt systems stats epochs =
      analyze model cfg tol fileName analyzedAt systems stats epochs ∧
    (analyze model cfg tol fileName analyzedAt systems stats epochs).map
        reportJson =
      (analyze model cfg tol fileName analyzedAt systems stats epochs).map
        reportJson ∧
    runChecks cfg track = runChecks cfg track ∧
    classifierScore model features = classifierScore model features :=
  ⟨rfl, rfl, rfl, rfl⟩

/-- C5: each numeric sample field is null exactly when the source sentence
for the epoch was absent, present values (zero included) are carried
through unchanged, and the client chart builders map absent values to
null, not 0. -/
theorem sample_null_iff_source_absent (t : String) (es : EpochSentences) :
    ((buildSample t es).lat = none ↔ es.gga = none) ∧
    ((buildSample t es).lon = none ↔ es.gga = none) ∧
    ((buildSample t es).alt_m = none ↔ es.gga = none) ∧
    ((buildSample t es).num_sats = none ↔ es.gga = none) ∧
    ((buildSample t es).speed_mps = none ↔ es.rmc = none) ∧
    ((buildSample t es).heading_deg = none ↔ es.rmc = none) ∧
    ((buildSample t es).hdop = none ↔ es.gsa = none) ∧
    ((buildSample t es).vdop = none ↔ es.gsa = none) ∧
    ((buildSample t es).pdop = none ↔ es.gsa = none) ∧
    ((buildSample t es).cn0_mean_dbhz = none ↔ es.gsvCn0 = []) ∧
    ((buildSample t es).cn0_min_dbhz = none ↔ es.gsvCn0 = []) ∧
    ((buildSample t es).cn0_max_dbhz = none ↔ es.gsvCn0 = []) ∧
    (∀ v, es.rmc = some v →
      (buildSample t es).speed_mps = some v.speed_mps) ∧
    (∀ (samples : List Sample) (k : ℕ), k < samples.length →
      ((speedChartData samples).getD k speedPointDefault).speed =
        (samples.getD k sampleDefault).speed_mps ∧
      ((cn0ChartData samples).getD k cn0PointDefault).cn0_mean =
        (samples.getD k sampleDefault).cn0_mean_dbhz ∧
      ((cn0ChartData samples).getD k cn0PointDefault).cn0_min =
        (samples.getD k sampleDefault).cn0_min_dbhz ∧
      ((cn0ChartData samples).getD k cn0PointDefault).cn0_max =
        (samples.getD k sampleDefault).cn0_max_dbhz) := by
  refine ⟨?_, ?_, ?_, ?_, ?_, ?_, ?_, ?_, ?_, ?_, ?_, ?_, ?_, ?_⟩
  · simp [buildSample, Option.map_eq_none']
  · simp [buildSample, Option.map_eq_none']
  · simp [buildSample, Option.map_eq_none']
  · simp [buildSample, Option.map_eq_none']
  · simp [buildSample, Option.map_eq_none']
  · simp [buildSample, Option.map_eq_none']
  · simp [buildSample, Option.map_eq_none']
  · simp [buildSample, Option.map_eq_none']
  · simp [buildSample, Option.map_eq_none']
  · cases h : es.gsvCn0 <;> simp [buildSample, cn0MeanOf, h]
  · cases h : es.gsvCn0 <;> simp [buildSample, cn0MinOf, h]
  · cases h : es.gsvCn0 <;> simp [buildSample, cn0MaxOf, h]
  · intro v hv
    simp [buildSample, hv]
  · intro samples k hk
    rw [show speedChartData samples = speedChartAux 0 samples from rfl,
      speedChartAux_getD samples 0 k hk,
      show cn0ChartData samples = cn0ChartAux 0 samples from rfl,
      cn0ChartAux_getD samples 0 k hk]
    exact ⟨rfl, rfl, rfl, rfl⟩

/-- Witness for C5 at a concrete epoch carrying only a velocity sentence. -/
theorem sample_null_iff_source_absent_witness :
    (buildSample "epoch" epochRmcOnly).speed_mps = some (5 : ℚ) :=
  (sample_null_iff_source_absent "epoch"
      epochRmcOnly).2.2.2.2.2.2.2.2.2.2.2.2.1
    { speed_mps := 5, heading_deg := 90 } rfl

/-- C6: the assembler is a pure constructor that mutates no input — every
field is passed through unchanged — and the client renders the full
analysis summary whether or not the spoofing score is present, with the
risk-conclusion element alone omitted when it is null. -/
theorem degraded_report_full_render :
    (∀ (m : ReportMeta) (track : List Sample) (anoms : List AnomalyEvent)
       (stats : List SatStat) (eph : EphemerisConsistency)
       (score : Option ℚ),
      (assembleReport m track anoms stats eph score).meta = m ∧
      (assembleReport m track anoms stats eph score).track = track ∧
      (assembleReport m track anoms stats eph score).anomalies = anoms ∧
      (assembleReport m track anoms stats eph score).satellite_stats = stats ∧
      (assembleReport m track anoms stats eph score).ephemeris_consistency
        = eph ∧
      (assembleReport m track anoms stats eph score).spoofing_score = score) ∧
    (∀ r : AnalysisReport, r.spoofing_score = none →
      renderHome (some r) = reportBlocks r) ∧
    (∀ (r : AnalysisReport) (q : ℚ), r.spoofing_score = some q →
      renderHome (some r) =
        Block.riskSummary (riskPct q) (riskLabel q).label :: reportBlocks r) := by
  refine ⟨fun m track anoms stats eph score => ⟨rfl, rfl, rfl, rfl, rfl, rfl⟩,
    ?_, ?_⟩
  · intro r h
    simp [renderHome, reportBlocks, h]
  · intro r q h
    simp [renderHome, reportBlocks, h]

/-- Witness for C6 at a concrete report without a classifier score. -/
theorem degraded_report_full_render_witness :
    renderHome (some reportNoScore) = reportBlocks reportNoScore :=
  degraded_report_full_render.2.1 reportNoScore rfl

/-- C7 counterexample: after a failed analyze request the error state is
set, yet the current page renders nothing at all — in particular no
element showing the error message — so the claim that an error message is
shown to the user fails on the code. -/
theorem upload_failure_error_not_rendered :
    (handleUpload (Except.error 400)).error =
      some "Analysis failed: HTTP 400" ∧
    (handleUpload (Except.error 400)).result = none ∧
    renderClient (handleUpload (Except.error 400)) = [] :=
  ⟨rfl, rfl, rfl⟩

/-- C7 (amended): an upload yielding no valid sample is an InputError, the
endpoint returns a non-OK status, the client result state remains null
while the error message is recorded in state (the current page renders no
error element), and nothing is rendered as a successful report. -/
theorem empty_upload_input_error (model : ClassifierModel)
    (cfg : DetectorConfig) (tol : ℕ) (fileName analyzedAt : String)
    (systems : List String) (stats : List SatStat) :
    analyze model cfg tol fileName analyzedAt systems stats [] =
      Except.error AnalyzeError.inputError ∧
    serveAnalyze (analyze model cfg tol fileName analyzedAt systems stats []) =
      Except.error 400 ∧
    (handleUpload
      (serveAnalyze
        (analyze model cfg tol fileName analyzedAt systems stats []))).result
      = none ∧
    (handleUpload
      (serveAnalyze
        (analyze model cfg tol fileName analyzedAt systems stats []))).error
      = some "Analysis failed: HTTP 400" ∧
    renderClient
      (handleUpload
        (serveAnalyze
          (analyze model cfg tol fileName analyzedAt systems stats []))) = [] :=
  ⟨rfl, rfl, rfl, rfl, rfl⟩

end NmeaBehavior
